import Mathlib

/-!
Shallow embedding of the capability-invocation engine of the ai-chat-platform
repository: the tool contract (`app/agent/tool_base.py`), the registry, the
stateless ReAct engine (`app/agent/agent_core.py`) and the conversational
engine (`app/services/conversational_agent.py`).

Modelling conventions:
* Python JSON values are the inductive `Json`; Python dicts are insertion
  ordered association lists (`pyDict` reproduces "last assignment wins").
* `json.dumps(..., ensure_ascii=False)` is `Json.dumps`.
* A tool body (`Tool._execute`) may raise: it is embedded as a function into
  `Except String ToolOutput`, the `.error` case carrying `str(e)`.
* The model gateway is an oracle `LLM`: a function from the request messages
  and the function menu to either `choices[0].message` or the exception text
  of a non-200 response (`_call_llm` raises on non-200).
* `json.loads(tool_call.function.arguments)` is embedded in the data: the
  `args` field of a `ToolCall` is the parse result, `.error m` meaning the
  load raised with message `m`.
* Wall-clock fields (`timestamp`, `execution_time`) are dropped: they are
  real-time data with no influence on control flow.
* Engine loops are fuel recursion, the fuel being `max_iterations` minus the
  iteration counter, exactly mirroring `while iteration < max_iterations`.
  The runs additionally return the list of message lists sent to the gateway
  (one entry per `_call_llm` call), as observable instrumentation of the
  network effect.
-/

namespace AIChat

/-- Python JSON values (`json.loads` output / `json.dumps` input). -/
inductive Json where
  | null : Json
  | bool (b : Bool) : Json
  | num (n : Int) : Json
  | str (s : String) : Json
  | arr (xs : List Json) : Json
  | obj (kvs : List (String × Json)) : Json

/-- Python `dict.get(k)`: the value of the last assignment to key `k`. -/
def dget {α : Type} (m : List (String × α)) (k : String) : Option α :=
  ((m.reverse).find? (fun p => p.1 == k)).map (fun p => p.2)

/-- Python `k in dict`. -/
def dmem {α : Type} (m : List (String × α)) (k : String) : Bool :=
  (dget m k).isSome

/-- One Python dict assignment `m[k] = v`: overwrite in place or append. -/
def pyInsert {α : Type} (m : List (String × α)) (k : String) (v : α) :
    List (String × α) :=
  if dmem m k then m.map (fun p => if p.1 == k then (k, v) else p)
  else m ++ [(k, v)]

/-- Python dict construction from a stream of key/value assignments. -/
def pyDict {α : Type} (xs : List (String × α)) : List (String × α) :=
  xs.foldl (fun m p => pyInsert m p.1 p.2) []

/-- Escaping of one character as done by `json.dumps` (ensure_ascii=False). -/
def escapeChar (c : Char) : String :=
  if c = '"' then "\\\""
  else if c = '\\' then "\\\\"
  else if c = '\n' then "\\n"
  else if c = '\t' then "\\t"
  else if c = '\r' then "\\r"
  else String.singleton c

/-- Model of `json.dumps` of a string body, without the surrounding quotes. -/
def escapeString (s : String) : String :=
  String.join (s.toList.map escapeChar)

mutual

/-- Model of `json.dumps(v, ensure_ascii=False)` with the default separators. -/
def Json.dumps : Json → String
  | .null => "null"
  | .bool true => "true"
  | .bool false => "false"
  | .num n => toString n
  | .str s => "\"" ++ escapeString s ++ "\""
  | .arr xs => "[" ++ Json.dumpsArr xs ++ "]"
  | .obj kvs => "\x7b" ++ Json.dumpsObj kvs ++ "\x7d"

/-- Comma separated dump of array elements. -/
def Json.dumpsArr : List Json → String
  | [] => ""
  | [x] => Json.dumps x
  | x :: y :: xs => Json.dumps x ++ ", " ++ Json.dumpsArr (y :: xs)

/-- Comma separated dump of object members. -/
def Json.dumpsObj : List (String × Json) → String
  | [] => ""
  | [(k, v)] => "\"" ++ escapeString k ++ "\": " ++ Json.dumps v
  | (k, v) :: m :: kvs =>
      "\"" ++ escapeString k ++ "\": " ++ Json.dumps v ++ ", " ++
        Json.dumpsObj (m :: kvs)

end

/-- A parsed JSON object, as passed to `tool.run(**tool_input)`. -/
abbrev ArgMap := List (String × Json)

/-- Model of `ToolOutput` (tool_base.py): the uniform result envelope. -/
structure ToolOutput where
  success : Bool
  result : Json
  error : Option String
  metadata : List (String × Json) := []

/-- Model of `Tool` (tool_base.py): identity, description, category tag, JSON-Schema
parameters, and the abstract `_execute` body.  `_execute` may raise; the
embedding gives it the type `ArgMap → Except String ToolOutput`, the `.error`
case carrying the `str(e)` of the raised exception. -/
structure Tool where
  name : String
  description : String
  category : String
  parameters : Json
  execute : ArgMap → Except String ToolOutput

/-- Model of `self.parameters.get("required", [])`: the declared required parameter
names (elements of the schema's `required` array). -/
def Tool.requiredParams (t : Tool) : List Json :=
  match t.parameters with
  | .obj kvs =>
      match dget kvs "required" with
      | some (.arr xs) => xs
      | _ => []
  | _ => []

/-- Formatting of a required-list entry inside the f-string of the
`ValueError` message.  Every schema in the repository declares its required
entries as strings, for which Python `str` is the identity. -/
def fmtParam : Json → String
  | .str s => s
  | j => j.dumps

/-- Equality of a required-list entry with a string dict key: Python
`param == key`, where `key` is a string (a non-string `param` never equals a
string key). -/
def isStrEq (p : Json) (k : String) : Bool :=
  match p with
  | .str s => s == k
  | _ => false

/-- The first required parameter missing from `params`, if any: Python
`param not in params` where the keys of `params` are strings. -/
def Tool.firstMissing (t : Tool) (params : ArgMap) : Option Json :=
  t.requiredParams.find? (fun p => !(params.any (fun kv => isStrEq p kv.1)))

/-- Model of `Tool._validate_parameters`: `ValueError` (as `.error`) on the first
missing required parameter. -/
def Tool.validateParameters (t : Tool) (params : ArgMap) : Except String Unit :=
  match t.firstMissing params with
  | some p => .error ("缺少必需参数: " ++ fmtParam p)
  | none => .ok ()

/-- Model of `Tool.run`: validate, execute, and convert any raised exception into a
failure `ToolOutput`.  Total by construction — the Python wrapper catches
every `Exception` raised by validation or by `_execute`. -/
def Tool.run (t : Tool) (params : ArgMap) : ToolOutput :=
  match t.validateParameters params with
  | .error e => { success := false, result := .null,
                  error := some (t.name ++ " 执行失败: " ++ e) }
  | .ok _ =>
    match t.execute params with
    | .ok r => r
    | .error e => { success := false, result := .null,
                    error := some (t.name ++ " 执行失败: " ++ e) }

/-- Model of `Tool.to_function_schema`: the OpenAI function-calling descriptor. -/
def Tool.toFunctionSchema (t : Tool) : Json :=
  .obj [("type", .str "function"),
        ("function", .obj [("name", .str t.name),
                           ("description", .str t.description),
                           ("parameters", t.parameters)])]

/-- Model of `ToolRegistry` (tool_base.py): the name-keyed store `self._tools`. -/
structure ToolRegistry where
  tools : List (String × Tool)

/-- Model of `ToolRegistry.register`: raise `ValueError` on a duplicate name (before
any mutation), otherwise store the tool.  The returned pair is the raised-or-
returned outcome together with the registry state after the call. -/
def ToolRegistry.register (r : ToolRegistry) (t : Tool) :
    Except String Unit × ToolRegistry :=
  if dmem r.tools t.name then
    (.error ("工具 " ++ t.name ++ " 已注册"), r)
  else
    (.ok (), { tools := r.tools ++ [(t.name, t)] })

/-- Model of `ToolRegistry.get_tool`. -/
def ToolRegistry.getTool (r : ToolRegistry) (name : String) : Option Tool :=
  dget r.tools name

/-! ### Gateway-level data: tool calls, assistant messages, conversation turns -/

/-- One entry of `choices[0].message.tool_calls`.  `args` is the result of
`json.loads(function.arguments)`: `.ok` the parsed object, `.error m` the
`str` of the exception raised on an unparsable payload. -/
structure ToolCall where
  id : String
  fname : String
  args : Except String ArgMap

/-- Model of `choices[0].message`: `.get("content", "")` yields `content.getD ""`,
truthiness of `.get("tool_calls")` is `tool_calls ≠ []`. -/
structure AssistantMsg where
  content : Option String
  tool_calls : List ToolCall

/-- One element of the `messages` list sent to the model. -/
inductive Msg where
  | system (content : String) : Msg
  | user (content : String) : Msg
  | assistant (m : AssistantMsg) : Msg
  | tool (tool_call_id : String) (content : String) : Msg

/-- The model gateway oracle: from the request `messages` and the `tools`
menu to `choices[0].message`, or (`.error text`) the body of a non-200
response on which `_call_llm` raises `Exception("LLM调用失败: " + text)`. -/
abbrev LLM := List Msg → List Json → Except String AssistantMsg

/-- Serialization of `None` / a string into a JSON field. -/
def optStrJson : Option String → Json
  | some s => .str s
  | none => .null

/-! ### Stateless engine: `ReactAgent` (agent_core.py) -/

namespace ReactAgent

/-- Model of `AgentStep` (timestamp dropped — wall-clock only). -/
structure AgentStep where
  thought : String
  action : Option String
  action_input : Option ArgMap
  observation : Option String

/-- The run result dict (execution_time dropped — wall-clock only).
`error := none` models the key being absent. -/
structure RunResult where
  success : Bool
  answer : Json
  steps : List AgentStep
  iterations : Nat
  error : Option String

/-- Model of `ReactAgent._build_system_prompt`. -/
def buildSystemPrompt (tools : List (String × Tool)) : String :=
  let descs := String.intercalate "\n"
    (tools.map (fun p => "- " ++ p.2.name ++ ": " ++ p.2.description))
  "你是一个智能助手，可以使用以下工具来帮助用户解决问题：\n\n" ++ descs ++
  "\n\n工作流程：\n1. 仔细分析用户的问题\n2. 思考需要使用哪个工具（或者已经可以回答）\n" ++
  "3. 如果需要工具，调用相应的函数\n4. 根据工具返回的结果继续推理\n" ++
  "5. 重复上述过程直到能够给出最终答案\n\n注意事项：\n- 使用工具时要准确传递参数\n" ++
  "- 根据观察结果调整后续行动\n- 如果工具返回错误，考虑使用其他工具或方法\n" ++
  "- 当你有足够信息时，给出清晰的最终答案\n"

/-- The synthetic `finish` descriptor appended by
`ReactAgent._get_function_schemas`. -/
def finishSchema : Json :=
  .obj [("type", .str "function"),
        ("function", .obj
          [("name", .str "finish"),
           ("description", .str "当你已经得出最终答案时调用此函数。返回给用户的完整答案。"),
           ("parameters", .obj
             [("type", .str "object"),
              ("properties", .obj
                [("answer", .obj [("type", .str "string"),
                                  ("description", .str "给用户的最终答案")])]),
              ("required", .arr [.str "answer"])])])]

/-- Model of `ReactAgent._get_function_schemas`: every tool's schema plus `finish`. -/
def getFunctionSchemas (tools : List (String × Tool)) : List Json :=
  tools.map (fun p => p.2.toFunctionSchema) ++ [finishSchema]

/-- Model of `ReactAgent._execute_tool`: lookup miss yields the literal error string;
otherwise the `Tool.run` envelope is dumped as JSON.  Total — `Tool.run`
never raises. -/
def executeTool (tools : List (String × Tool)) (name : String)
    (input : ArgMap) : String :=
  match dget tools name with
  | none => "错误：工具 \x27" ++ name ++ "\x27 不存在"
  | some t =>
    let r := t.run input
    if r.success then
      Json.dumps (.obj [("success", .bool true), ("result", r.result)])
    else
      Json.dumps (.obj [("success", .bool false), ("error", optStrJson r.error)])

/-- The trace step recorded for a `finish` call. -/
def finishStep (final : Json) : AgentStep :=
  { thought := "我已经得出最终答案", action := some "finish",
    action_input := some [("answer", final)], observation := none }

/-- The trace step recorded for a normal tool call. -/
def toolStep (name : String) (fa : ArgMap) (obs : String) : AgentStep :=
  { thought := "使用工具 " ++ name, action := some name,
    action_input := some fa, observation := some obs }

/-- The `except Exception` result dict at the bottom of `ReactAgent.run`. -/
def errorResult (e : String) (steps : List AgentStep) (it : Nat) : RunResult :=
  { success := false, answer := .str ("执行过程中发生错误: " ++ e),
    steps := steps, iterations := it, error := some e }

/-- The result dict returned when the iteration cap is exhausted. -/
def maxIterResult (steps : List AgentStep) (it : Nat) : RunResult :=
  { success := false, answer := .str "抱歉，我在规定的步骤内未能得出答案",
    steps := steps, iterations := it, error := some "达到最大迭代次数" }

/-- The `while iteration < max_iterations` loop of `ReactAgent.run`.  `fuel`
is `max_iterations - iteration`; `log` accumulates the message list of every
gateway call made so far. -/
def loop (tools : List (String × Tool)) (llm : LLM) (functions : List Json) :
    Nat → List Msg → List AgentStep → Nat → List (List Msg) →
    RunResult × List (List Msg)
  | 0, _, steps, iteration, log => (maxIterResult steps iteration, log)
  | fuel + 1, messages, steps, iteration, log =>
    let it := iteration + 1
    let log' := log ++ [messages]
    match llm messages functions with
    | .error t => (errorResult ("LLM调用失败: " ++ t) steps it, log')
    | .ok am =>
      match am.tool_calls with
      | [] =>
        ({ success := true, answer := .str (am.content.getD ""),
           steps := steps, iterations := it, error := none }, log')
      | tc :: _ =>
        match tc.args with
        | .error m => (errorResult m steps it, log')
        | .ok fa =>
          if tc.fname == "finish" then
            let final := (dget fa "answer").getD (.str "")
            ({ success := true, answer := final,
               steps := steps ++ [finishStep final], iterations := it,
               error := none }, log')
          else
            let obs := executeTool tools tc.fname fa
            let steps' := steps ++ [toolStep tc.fname fa obs]
            let messages' := messages ++ [.assistant am, .tool tc.id obs]
            loop tools llm functions fuel messages' steps' it log'

/-- Model of `ReactAgent.run(query)`: build the tool dict and the initial messages,
then drive the loop for `config.max_iterations` iterations. -/
def run (tools : List Tool) (llm : LLM) (max_iterations : Nat)
    (query : String) : RunResult × List (List Msg) :=
  let toolMap := pyDict (tools.map (fun t => (t.name, t)))
  let messages : List Msg :=
    [.system (buildSystemPrompt toolMap), .user query]
  loop toolMap llm (getFunctionSchemas toolMap) max_iterations messages [] 0 []

end ReactAgent

/-! ### Conversational engine: `ConversationalAgent`
(services/conversational_agent.py) -/

namespace ConversationalAgent

/-- A step dict of the conversational trace (timestamp dropped — wall-clock
only).  `observation := none` models the key being absent. -/
structure CStep where
  iteration : Nat
  action : String
  input : ArgMap
  observation : Option String

/-- The conversational run result dict (execution_time dropped).
`error := none` / `messages_to_save := none` model the keys being absent. -/
structure ConvRunResult where
  success : Bool
  answer : Json
  steps : List CStep
  iterations : Nat
  error : Option String
  rag_enabled : Bool
  rag_kb_name : Option String
  source_documents : List Json
  messages_to_save : Option Json

/-- The dict returned by `RAGService.rag_query`, restricted to the two keys
the engine reads (`context`, `source_documents`); on success both keys are
always present. -/
structure RagResult where
  context : String
  source_documents : List Json

/-- The retrieval oracle: `rag_service.rag_query(kb_name, query, top_k)`,
`.error e` meaning the call raised with message `e`. -/
abbrev RagOracle := String → String → Nat → Except String RagResult

/-- Model of `ConversationalAgent._build_system_prompt`: the base prompt, with the
retrieval context folded in only when `rag_context` is truthy (neither `None`
nor the empty string). -/
def buildSystemPrompt (tools : List (String × Tool))
    (rag_context : Option String) : String :=
  let descs := String.intercalate "\n"
    (tools.map (fun p => "- " ++ p.2.name ++ ": " ++ p.2.description))
  let base :=
    "你是一个智能助手,可以使用以下工具来帮助用户:\n\n" ++ descs ++
    "\n\n工作流程:\n1. 仔细分析用户的问题\n2. 如果需要工具,调用相应的函数\n" ++
    "3. 根据工具返回的结果继续推理\n4. 给出清晰准确的最终答案\n\n注意:\n" ++
    "- 使用工具时要准确传递参数\n- 根据观察结果调整后续行动\n" ++
    "- 保持对话连贯,记住之前的上下文\n"
  match rag_context with
  | some ctx =>
    if ctx == "" then base
    else
      base ++ "\n\n参考知识库内容:\n" ++ ctx ++
      "\n\n请优先使用上述知识库内容回答问题。如果知识库中没有相关信息,可以使用工具或基于你的知识回答。"
  | none => base

/-- The synthetic `finish` descriptor appended by
`ConversationalAgent._get_function_schemas`. -/
def finishSchema : Json :=
  .obj [("type", .str "function"),
        ("function", .obj
          [("name", .str "finish"),
           ("description", .str "当你已经得出最终答案时调用此函数"),
           ("parameters", .obj
             [("type", .str "object"),
              ("properties", .obj
                [("answer", .obj [("type", .str "string"),
                                  ("description", .str "给用户的最终答案")])]),
              ("required", .arr [.str "answer"])])])]

/-- Model of `ConversationalAgent._get_function_schemas`. -/
def getFunctionSchemas (tools : List (String × Tool)) : List Json :=
  tools.map (fun p => p.2.toFunctionSchema) ++ [finishSchema]

/-- Model of `ConversationalAgent._execute_tool`: a lookup miss and a normal run both
produce a JSON-shaped observation string.  Total — `Tool.run` never raises. -/
def executeTool (tools : List (String × Tool)) (name : String)
    (input : ArgMap) : String :=
  match dget tools name with
  | none =>
    Json.dumps (.obj [("success", .bool false),
                      ("error", .str ("工具 \x27" ++ name ++ "\x27 不存在"))])
  | some t =>
    let r := t.run input
    Json.dumps (.obj [("success", .bool r.success),
                      ("result", if r.success then r.result else .null),
                      ("error", if r.success then .null else optStrJson r.error)])

/-- Model of `steps[-1]["observation"] = observation` guarded by `if steps:`. -/
def setLastObs : List CStep → String → List CStep
  | [], _ => []
  | [s], obs => [{ s with observation := some obs }]
  | s :: t :: rest, obs => s :: setLastObs (t :: rest) obs

/-- The `except Exception` result dict at the bottom of
`ConversationalAgent.run`. -/
def errorResult (e : String) (steps : List CStep) (it : Nat)
    (enable_rag : Bool) (kb_name : Option String)
    (source_documents : List Json) : ConvRunResult :=
  { success := false, answer := .str ("执行过程中发生错误: " ++ e),
    steps := steps, iterations := it, error := some e,
    rag_enabled := enable_rag,
    rag_kb_name := if enable_rag then kb_name else none,
    source_documents := if enable_rag then source_documents else [],
    messages_to_save := none }

/-- The result dict returned when the iteration cap is exhausted. -/
def maxIterResult (steps : List CStep) (it : Nat) (enable_rag : Bool)
    (kb_name : Option String) (source_documents : List Json) : ConvRunResult :=
  { success := false, answer := .str "抱歉,我在规定的步骤内未能得出答案",
    steps := steps, iterations := it, error := some "达到最大迭代次数",
    rag_enabled := enable_rag,
    rag_kb_name := if enable_rag then kb_name else none,
    source_documents := if enable_rag then source_documents else [],
    messages_to_save := none }

/-- The `messages_to_save` list `[{"role": "assistant", "content": answer}]`. -/
def messagesToSave (answer : Json) : Json :=
  .arr [.obj [("role", .str "assistant"), ("content", answer)]]

/-- The result dict returned on a `finish` call or a direct answer. -/
def successResult (answer : Json) (steps : List CStep) (it : Nat)
    (enable_rag : Bool) (kb_name : Option String)
    (source_documents : List Json) : ConvRunResult :=
  { success := true, answer := answer, steps := steps, iterations := it,
    error := none, rag_enabled := enable_rag,
    rag_kb_name := if enable_rag then kb_name else none,
    source_documents := if enable_rag then source_documents else [],
    messages_to_save := some (messagesToSave answer) }

/-- Outcome of the `for tool_call in tool_calls` loop: a `finish` returned a
result, a `json.loads` raise escaped it, or it ran to completion and control
returns to the iteration loop. -/
inductive ProcOut where
  | done (r : ConvRunResult) : ProcOut
  | raised (e : String) (steps : List CStep) : ProcOut
  | next (messages : List Msg) (steps : List CStep) : ProcOut

/-- The `for tool_call in tool_calls` body of `ConversationalAgent.run`: in
order, parse the arguments (a raise aborts the run), record the trace step,
return on `finish`, otherwise execute and append the tool-result turn. -/
def processCalls (tools : List (String × Tool)) (enable_rag : Bool)
    (kb_name : Option String) (source_documents : List Json) (it : Nat) :
    List ToolCall → List Msg → List CStep → ProcOut
  | [], messages, steps => .next messages steps
  | tc :: rest, messages, steps =>
    match tc.args with
    | .error m => .raised m steps
    | .ok fa =>
      let steps' := steps ++
        [{ iteration := it, action := tc.fname, input := fa,
           observation := none }]
      if tc.fname == "finish" then
        let final := (dget fa "answer").getD (.str "")
        .done (successResult final steps' it enable_rag kb_name
          source_documents)
      else
        let obs := executeTool tools tc.fname fa
        let steps'' := setLastObs steps' obs
        let messages' := messages ++ [.tool tc.id obs]
        processCalls tools enable_rag kb_name source_documents it rest
          messages' steps''

/-- The `while iteration < max_iterations` loop of
`ConversationalAgent.run`.  `fuel` is `max_iterations - iteration`; `log`
accumulates the message list of every gateway call. -/
def loop (tools : List (String × Tool)) (llm : LLM) (functions : List Json)
    (enable_rag : Bool) (kb_name : Option String)
    (source_documents : List Json) :
    Nat → List Msg → List CStep → Nat → List (List Msg) →
    ConvRunResult × List (List Msg)
  | 0, _, steps, iteration, log =>
    (maxIterResult steps iteration enable_rag kb_name source_documents, log)
  | fuel + 1, messages, steps, iteration, log =>
    let it := iteration + 1
    let log' := log ++ [messages]
    match llm messages functions with
    | .error t =>
      (errorResult ("LLM调用失败: " ++ t) steps it enable_rag kb_name
        source_documents, log')
    | .ok am =>
      match am.tool_calls with
      | [] =>
        (successResult (.str (am.content.getD "")) steps it enable_rag
          kb_name source_documents, log')
      | tc :: rest =>
        let messages₁ := messages ++ [.assistant am]
        match processCalls tools enable_rag kb_name source_documents it
          (tc :: rest) messages₁ steps with
        | .done r => (r, log')
        | .raised e stepsAt =>
          (errorResult e stepsAt it enable_rag kb_name source_documents, log')
        | .next messages' steps' =>
          loop tools llm functions enable_rag kb_name source_documents fuel
            messages' steps' it log'

/-- Model of `ConversationalAgent._get_rag_context`: one `rag_query` call, any raise
caught and turned into `None`. -/
def getRagContext (rag : RagOracle) (query : String) (kb_name : String)
    (top_k : Nat) : Option RagResult :=
  match rag kb_name query top_k with
  | .ok r => some r
  | .error _ => none

/-- The `if enable_rag and kb_name:` guard of `ConversationalAgent.run`
(`kb_name` is truthy when it is a non-empty string) around the single
`_get_rag_context` call. -/
def ragOptOf (rag : RagOracle) (enable_rag : Bool) (kb_name : Option String)
    (user_message : String) (rag_top_k : Nat) : Option RagResult :=
  match kb_name with
  | some k =>
    if enable_rag && !(k == "") then
      getRagContext rag user_message k rag_top_k
    else none
  | none => none

/-- Model of `ConversationalAgent.run`: query the retrieval provider at most once
(before any model call), build `[system] + conversation_history + [user]`,
and drive the loop. -/
def run (tools : List Tool) (llm : LLM) (max_iterations : Nat)
    (rag : RagOracle) (user_message : String)
    (conversation_history : List Msg) (enable_rag : Bool)
    (kb_name : Option String) (rag_top_k : Nat) :
    ConvRunResult × List (List Msg) :=
  let toolMap := pyDict (tools.map (fun t => (t.name, t)))
  let ragOpt : Option RagResult :=
    ragOptOf rag enable_rag kb_name user_message rag_top_k
  let rag_context : Option String := ragOpt.map (fun r => r.context)
  let source_documents : List Json :=
    (ragOpt.map (fun r => r.source_documents)).getD []
  let messages : List Msg :=
    [.system (buildSystemPrompt toolMap rag_context)] ++
      conversation_history ++ [.user user_message]
  loop toolMap llm (getFunctionSchemas toolMap) enable_rag kb_name
    source_documents max_iterations messages [] 0 []

/-- The observation string a tool call produces (its arguments must have
parsed, which holds wherever this is used). -/
def obsOf (tools : List (String × Tool)) (tc : ToolCall) : String :=
  match tc.args with
  | .ok fa => executeTool tools tc.fname fa
  | .error _ => ""

/-- The tool-result turn answering a tool call. -/
def toolTurn (tools : List (String × Tool)) (tc : ToolCall) : Msg :=
  .tool tc.id (obsOf tools tc)

/-- The completed trace step a non-finish tool call leaves behind. -/
def stepOf (tools : List (String × Tool)) (it : Nat) (tc : ToolCall) :
    CStep :=
  match tc.args with
  | .ok fa =>
    { iteration := it, action := tc.fname, input := fa,
      observation := some (executeTool tools tc.fname fa) }
  | .error _ =>
    { iteration := it, action := tc.fname, input := [], observation := none }

end ConversationalAgent

/-! ### Concrete fixtures for witnesses and counterexamples -/

/-- A capability with one required parameter whose body always succeeds. -/
def calcTool : Tool :=
  { name := "calculator", description := "计算数学表达式", category := "calculation",
    parameters := .obj
      [("type", .str "object"),
       ("properties", .obj [("expression", .obj [("type", .str "string")])]),
       ("required", .arr [.str "expression"])],
    execute := fun _ => .ok { success := true, result := .str "42", error := none } }

/-- A second capability carrying the same name as `calcTool`. -/
def calcTool2 : Tool :=
  { calcTool with description := "另一个计算器" }

/-- A capability with no required parameters whose body always raises. -/
def raisingTool : Tool :=
  { name := "mailer", description := "发送邮件", category := "communication",
    parameters := .obj
      [("type", .str "object"), ("properties", .obj []),
       ("required", .arr [])],
    execute := fun _ => .error "SMTP连接超时" }

/-- A gateway that always issues a `finish` request with no `answer` key. -/
def llmFinishNoAnswer : LLM := fun _ _ =>
  .ok ⟨none, [⟨"call_1", "finish", .ok []⟩]⟩

/-- A gateway whose first response carries two non-finish invocation
requests and whose later responses are a direct answer (the initial message
list of a stateless run has exactly two entries). -/
def llmTwoCalls : LLM := fun ms _ =>
  if ms.length ≤ 2 then
    .ok ⟨none, [⟨"id_a", "lookup_a", .ok []⟩, ⟨"id_b", "lookup_b", .ok []⟩]⟩
  else .ok ⟨some "done", []⟩

/-- A gateway that always requests the non-finish `calculator` capability. -/
def llmAlwaysCall : LLM := fun _ _ =>
  .ok ⟨none, [⟨"id_1", "calculator", .ok [("expression", .str "21*2")]⟩]⟩

/-- A gateway that always answers directly, with no invocation requests. -/
def llmDirect : LLM := fun _ _ => .ok ⟨some "直接回答", []⟩

/-- A gateway whose turn carries a `finish` request (with an answer) followed
by a further invocation request that must never run. -/
def llmFinishAnswer : LLM := fun _ _ =>
  .ok ⟨none, [⟨"id_f", "finish", .ok [("answer", .str "42")]⟩,
              ⟨"id_x", "calculator", .ok [("expression", .str "1+1")]⟩]⟩

/-- A gateway whose backend always responds with a non-200 status. -/
def llmGwFail : LLM := fun _ _ => .error "Internal Server Error"

/-- A gateway whose invocation request carries an unparsable argument
payload. -/
def llmBadArgs : LLM := fun _ _ =>
  .ok ⟨none, [⟨"id_1", "calculator",
    .error "Expecting value: line 1 column 1 (char 0)"⟩]⟩

/-- A retrieval provider that always raises. -/
def ragBoom : ConversationalAgent.RagOracle := fun _ _ _ =>
  .error "RAG查询失败: 连接失败"

/-- A retrieval provider that returns fixed context and one fragment. -/
def ragOkFix : ConversationalAgent.RagOracle := fun _ _ _ =>
  .ok ⟨"知识库内容", [.obj [("content", .str "文档一")]]⟩

/-- Recognizer for tool-result turns. -/
def isToolMsg : Msg → Bool
  | .tool _ _ => true
  | _ => false

/-- Recognizer for the tool-result turn answering correlation id `cid`. -/
def isToolMsgFor (cid : String) : Msg → Bool
  | .tool i _ => i == cid
  | _ => false

/-- Number of invocation requests carried by a turn. -/
def callsOfTurn : Msg → Nat
  | .assistant am => am.tool_calls.length
  | _ => 0

/-! ### Helper lemmas about the conversational ACTING state and both loops -/

/-- A string starting from a non-empty middle chunk is non-empty. -/
theorem append3_ne_empty (a b c : String) (hb : 0 < b.length) :
    a ++ b ++ c ≠ "" := by
  intro h0
  have hl := congrArg String.length h0
  rw [String.length_append, String.length_append] at hl
  have : ("" : String).length = 0 := rfl
  omega

/-- A string with a non-empty first chunk is non-empty. -/
theorem append_ne_empty_left (a b : String) (ha : 0 < a.length) :
    a ++ b ≠ "" := by
  intro h0
  have hl := congrArg String.length h0
  rw [String.length_append] at hl
  have : ("" : String).length = 0 := rfl
  omega

/-- The key just appended to a dict is a member. -/
theorem dmem_append_self {α : Type} (m : List (String × α)) (k : String)
    (v : α) : dmem (m ++ [(k, v)]) k = true := by
  simp [dmem, dget, List.reverse_append]

namespace ConversationalAgent

theorem setLastObs_append (s : CStep) (obs : String) :
    ∀ steps : List CStep,
      setLastObs (steps ++ [s]) obs =
        steps ++ [{ s with observation := some obs }]
  | [] => rfl
  | [_] => rfl
  | a :: b :: t => by
    have ih := setLastObs_append s obs (b :: t)
    show a :: setLastObs ((b :: t) ++ [s]) obs = _
    rw [ih]
    simp

/-- A run of non-finish calls with parsable arguments is processed in order:
each one appends exactly one tool-result turn (carrying its correlation id)
and one completed trace step, then processing moves on. -/
theorem processCalls_append (tools : List (String × Tool)) (er : Bool)
    (kb : Option String) (sd : List Json) (it : Nat) :
    ∀ (pre rest : List ToolCall) (ms : List Msg) (st : List CStep),
    (∀ tc ∈ pre, tc.fname ≠ "finish" ∧ ∃ fa, tc.args = .ok fa) →
    processCalls tools er kb sd it (pre ++ rest) ms st =
      processCalls tools er kb sd it rest (ms ++ pre.map (toolTurn tools))
        (st ++ pre.map (stepOf tools it))
  | [], rest, ms, st, _ => by simp
  | tc :: pre, rest, ms, st, h => by
    obtain ⟨hne, fa, hfa⟩ := h tc (by simp)
    have hpre : ∀ x ∈ pre, x.fname ≠ "finish" ∧ ∃ fa, x.args = .ok fa :=
      fun x hx => h x (by simp [hx])
    have hbeq : (tc.fname == "finish") = false := by
      simp [hne]
    have hturn : toolTurn tools tc = .tool tc.id (executeTool tools tc.fname fa) := by
      simp [toolTurn, obsOf, hfa]
    have hstep : stepOf tools it tc =
        { iteration := it, action := tc.fname, input := fa,
          observation := some (executeTool tools tc.fname fa) } := by
      simp [stepOf, hfa]
    have ih := processCalls_append tools er kb sd it pre rest
      (ms ++ [toolTurn tools tc]) (st ++ [stepOf tools it tc]) hpre
    show processCalls tools er kb sd it (tc :: (pre ++ rest)) ms st = _
    rw [processCalls, hfa]
    simp only [hbeq, Bool.false_eq_true, if_false]
    rw [setLastObs_append]
    rw [hturn, hstep] at ih
    rw [ih]
    simp [hturn, hstep]

theorem processCalls_next_extends (tools : List (String × Tool)) (er : Bool)
    (kb : Option String) (sd : List Json) (it : Nat) :
    ∀ (calls : List ToolCall) (ms : List Msg) (st : List CStep)
      (ms' : List Msg) (st' : List CStep),
    processCalls tools er kb sd it calls ms st = .next ms' st' →
    ∃ ext, ms' = ms ++ ext
  | [], ms, st, ms', st', h => by
    rw [processCalls] at h
    cases h
    exact ⟨[], by simp⟩
  | tc :: rest, ms, st, ms', st', h => by
    rw [processCalls] at h
    cases hfa : tc.args with
    | error m => rw [hfa] at h; cases h
    | ok fa =>
      rw [hfa] at h
      cases hfin : (tc.fname == "finish") with
      | true => simp only [hfin, if_true] at h; cases h
      | false =>
        simp only [hfin, Bool.false_eq_true, if_false] at h
        obtain ⟨ext, hext⟩ := processCalls_next_extends tools er kb sd it rest
          _ _ ms' st' h
        refine ⟨Msg.tool tc.id (executeTool tools tc.fname fa) :: ext, ?_⟩
        rw [hext]
        simp

theorem processCalls_done_fields (tools : List (String × Tool)) (er : Bool)
    (kb : Option String) (sd : List Json) (it : Nat) :
    ∀ (calls : List ToolCall) (ms : List Msg) (st : List CStep)
      (r : ConvRunResult),
    processCalls tools er kb sd it calls ms st = .done r →
    r.iterations = it ∧ r.source_documents = (if er then sd else [])
  | [], _, _, r, h => by rw [processCalls] at h; cases h
  | tc :: rest, ms, st, r, h => by
    rw [processCalls] at h
    cases hfa : tc.args with
    | error m => rw [hfa] at h; cases h
    | ok fa =>
      rw [hfa] at h
      cases hfin : (tc.fname == "finish") with
      | true =>
        simp only [hfin, if_true] at h
        cases h
        exact ⟨rfl, rfl⟩
      | false =>
        simp only [hfin, Bool.false_eq_true, if_false] at h
        exact processCalls_done_fields tools er kb sd it rest _ _ r h

/-! #### Unfold equations for the conversational loop -/

theorem cloop_zero (tools : List (String × Tool)) (llm : LLM)
    (fns : List Json) (er : Bool) (kb : Option String) (sd : List Json)
    (ms : List Msg) (st : List CStep) (it : Nat) (log : List (List Msg)) :
    loop tools llm fns er kb sd 0 ms st it log =
      (maxIterResult st it er kb sd, log) := rfl

theorem cloop_gw_error (tools : List (String × Tool)) (llm : LLM)
    (fns : List Json) (er : Bool) (kb : Option String) (sd : List Json)
    (fuel : Nat) (ms : List Msg) (st : List CStep) (it : Nat)
    (log : List (List Msg)) (t : String) (h : llm ms fns = .error t) :
    loop tools llm fns er kb sd (fuel + 1) ms st it log =
      (errorResult ("LLM调用失败: " ++ t) st (it + 1) er kb sd, log ++ [ms]) := by
  rw [loop, h]

theorem cloop_direct (tools : List (String × Tool)) (llm : LLM)
    (fns : List Json) (er : Bool) (kb : Option String) (sd : List Json)
    (fuel : Nat) (ms : List Msg) (st : List CStep) (it : Nat)
    (log : List (List Msg)) (am : AssistantMsg)
    (h : llm ms fns = .ok am) (hc : am.tool_calls = []) :
    loop tools llm fns er kb sd (fuel + 1) ms st it log =
      (successResult (.str (am.content.getD "")) st (it + 1) er kb sd,
        log ++ [ms]) := by
  rw [loop, h]
  simp only [hc]

theorem loop_acting (tools : List (String × Tool)) (llm : LLM)
    (fns : List Json) (er : Bool) (kb : Option String) (sd : List Json)
    (fuel : Nat) (ms : List Msg) (st : List CStep) (it : Nat)
    (log : List (List Msg)) (am : AssistantMsg) (tc : ToolCall)
    (rest : List ToolCall)
    (h : llm ms fns = .ok am) (hc : am.tool_calls = tc :: rest) :
    loop tools llm fns er kb sd (fuel + 1) ms st it log =
      (match processCalls tools er kb sd (it + 1) (tc :: rest)
          (ms ++ [.assistant am]) st with
        | .done r => (r, log ++ [ms])
        | .raised e stepsAt =>
          (errorResult e stepsAt (it + 1) er kb sd, log ++ [ms])
        | .next ms' st' =>
          loop tools llm fns er kb sd fuel ms' st' (it + 1) (log ++ [ms])) := by
  rw [loop, h]
  simp only [hc]

/-- The conversational loop never reports more iterations than the fuel it
was given allows. -/
theorem cloop_iterations_le (tools : List (String × Tool)) (llm : LLM)
    (fns : List Json) (er : Bool) (kb : Option String) (sd : List Json) :
    ∀ (fuel : Nat) (ms : List Msg) (st : List CStep) (it : Nat)
      (log : List (List Msg)),
    ((loop tools llm fns er kb sd fuel ms st it log).1).iterations ≤ it + fuel
  | 0, ms, st, it, log => by simp [cloop_zero, maxIterResult]
  | fuel + 1, ms, st, it, log => by
    cases hllm : llm ms fns with
    | error t =>
      rw [cloop_gw_error tools llm fns er kb sd fuel ms st it log t hllm]
      simp [errorResult]
    | ok am =>
      cases hcalls : am.tool_calls with
      | nil =>
        rw [cloop_direct tools llm fns er kb sd fuel ms st it log am hllm hcalls]
        simp [successResult]
      | cons tc rest =>
        rw [loop_acting tools llm fns er kb sd fuel ms st it log am tc rest
          hllm hcalls]
        cases hproc : processCalls tools er kb sd (it + 1) (tc :: rest)
            (ms ++ [.assistant am]) st with
        | done r =>
          have := (processCalls_done_fields tools er kb sd (it + 1)
            (tc :: rest) _ st r hproc).1
          simp [this]
        | raised e stepsAt =>
          simp [errorResult]
        | next ms' st' =>
          simp only []
          have := cloop_iterations_le tools llm fns er kb sd fuel ms' st'
            (it + 1) (log ++ [ms])
          omega

/-- Every message list the conversational loop sends to the gateway extends
the message list it started from. -/
theorem loop_log_extends (tools : List (String × Tool)) (llm : LLM)
    (fns : List Json) (er : Bool) (kb : Option String) (sd : List Json)
    (pre : List Msg) :
    ∀ (fuel : Nat) (ms : List Msg) (st : List CStep) (it : Nat)
      (log : List (List Msg)),
    (∀ e ∈ log, ∃ ext, e = pre ++ ext) → (∃ ext, ms = pre ++ ext) →
    ∀ e ∈ (loop tools llm fns er kb sd fuel ms st it log).2,
      ∃ ext, e = pre ++ ext
  | 0, ms, st, it, log, hlog, _ => by
    rw [cloop_zero]
    exact hlog
  | fuel + 1, ms, st, it, log, hlog, hms => by
    have hlog' : ∀ e ∈ log ++ [ms], ∃ ext, e = pre ++ ext := by
      intro e he
      rcases List.mem_append.1 he with h | h
      · exact hlog e h
      · rcases List.mem_singleton.1 h with rfl
        exact hms
    cases hllm : llm ms fns with
    | error t =>
      rw [cloop_gw_error tools llm fns er kb sd fuel ms st it log t hllm]
      exact hlog'
    | ok am =>
      cases hcalls : am.tool_calls with
      | nil =>
        rw [cloop_direct tools llm fns er kb sd fuel ms st it log am hllm hcalls]
        exact hlog'
      | cons tc rest =>
        rw [loop_acting tools llm fns er kb sd fuel ms st it log am tc rest
          hllm hcalls]
        cases hproc : processCalls tools er kb sd (it + 1) (tc :: rest)
            (ms ++ [.assistant am]) st with
        | done r => exact hlog'
        | raised e stepsAt => exact hlog'
        | next ms' st' =>
          obtain ⟨ext, hext⟩ := processCalls_next_extends tools er kb sd
            (it + 1) (tc :: rest) _ st ms' st' hproc
          obtain ⟨ext₀, hext₀⟩ := hms
          refine loop_log_extends tools llm fns er kb sd pre fuel ms' st'
            (it + 1) (log ++ [ms]) hlog'
            ⟨ext₀ ++ ([Msg.assistant am] ++ ext), ?_⟩
          rw [hext, hext₀]
          simp

/-- With no retrieved fragments, every terminal result of the conversational
loop reports an empty source-document list. -/
theorem loop_sd_nil (tools : List (String × Tool)) (llm : LLM)
    (fns : List Json) (er : Bool) (kb : Option String) :
    ∀ (fuel : Nat) (ms : List Msg) (st : List CStep) (it : Nat)
      (log : List (List Msg)),
    ((loop tools llm fns er kb [] fuel ms st it log).1).source_documents = []
  | 0, ms, st, it, log => by simp [cloop_zero, maxIterResult]
  | fuel + 1, ms, st, it, log => by
    cases hllm : llm ms fns with
    | error t =>
      rw [cloop_gw_error tools llm fns er kb [] fuel ms st it log t hllm]
      simp [errorResult]
    | ok am =>
      cases hcalls : am.tool_calls with
      | nil =>
        rw [cloop_direct tools llm fns er kb [] fuel ms st it log am hllm hcalls]
        simp [successResult]
      | cons tc rest =>
        rw [loop_acting tools llm fns er kb [] fuel ms st it log am tc rest
          hllm hcalls]
        cases hproc : processCalls tools er kb [] (it + 1) (tc :: rest)
            (ms ++ [.assistant am]) st with
        | done r =>
          have := (processCalls_done_fields tools er kb [] (it + 1)
            (tc :: rest) _ st r hproc).2
          simp [this]
        | raised e stepsAt => simp [errorResult]
        | next ms' st' =>
          simp only []
          exact loop_sd_nil tools llm fns er kb fuel ms' st' (it + 1)
            (log ++ [ms])

end ConversationalAgent

namespace ReactAgent

/-! #### Unfold equations for the stateless loop -/

theorem rloop_zero (tools : List (String × Tool)) (llm : LLM)
    (fns : List Json) (ms : List Msg) (st : List AgentStep) (it : Nat)
    (log : List (List Msg)) :
    loop tools llm fns 0 ms st it log = (maxIterResult st it, log) := rfl

theorem rloop_gw_error (tools : List (String × Tool)) (llm : LLM)
    (fns : List Json) (fuel : Nat) (ms : List Msg) (st : List AgentStep)
    (it : Nat) (log : List (List Msg)) (t : String)
    (h : llm ms fns = .error t) :
    loop tools llm fns (fuel + 1) ms st it log =
      (errorResult ("LLM调用失败: " ++ t) st (it + 1), log ++ [ms]) := by
  rw [loop, h]

theorem rloop_direct (tools : List (String × Tool)) (llm : LLM)
    (fns : List Json) (fuel : Nat) (ms : List Msg) (st : List AgentStep)
    (it : Nat) (log : List (List Msg)) (am : AssistantMsg)
    (h : llm ms fns = .ok am) (hc : am.tool_calls = []) :
    loop tools llm fns (fuel + 1) ms st it log =
      ({ success := true, answer := .str (am.content.getD ""), steps := st,
         iterations := it + 1, error := none }, log ++ [ms]) := by
  rw [loop, h]
  simp only [hc]

theorem loop_argfail (tools : List (String × Tool)) (llm : LLM)
    (fns : List Json) (fuel : Nat) (ms : List Msg) (st : List AgentStep)
    (it : Nat) (log : List (List Msg)) (am : AssistantMsg) (tc : ToolCall)
    (rest : List ToolCall) (m : String)
    (h : llm ms fns = .ok am) (hc : am.tool_calls = tc :: rest)
    (hfa : tc.args = .error m) :
    loop tools llm fns (fuel + 1) ms st it log =
      (errorResult m st (it + 1), log ++ [ms]) := by
  rw [loop, h]
  simp only [hc, hfa]

theorem loop_finish (tools : List (String × Tool)) (llm : LLM)
    (fns : List Json) (fuel : Nat) (ms : List Msg) (st : List AgentStep)
    (it : Nat) (log : List (List Msg)) (am : AssistantMsg) (tc : ToolCall)
    (rest : List ToolCall) (fa : ArgMap)
    (h : llm ms fns = .ok am) (hc : am.tool_calls = tc :: rest)
    (hfa : tc.args = .ok fa) (hname : tc.fname = "finish") :
    loop tools llm fns (fuel + 1) ms st it log =
      ({ success := true, answer := (dget fa "answer").getD (.str ""),
         steps := st ++ [finishStep ((dget fa "answer").getD (.str ""))],
         iterations := it + 1, error := none }, log ++ [ms]) := by
  rw [loop, h]
  simp only [hc, hfa]
  simp [hname]

theorem loop_tool (tools : List (String × Tool)) (llm : LLM)
    (fns : List Json) (fuel : Nat) (ms : List Msg) (st : List AgentStep)
    (it : Nat) (log : List (List Msg)) (am : AssistantMsg) (tc : ToolCall)
    (rest : List ToolCall) (fa : ArgMap)
    (h : llm ms fns = .ok am) (hc : am.tool_calls = tc :: rest)
    (hfa : tc.args = .ok fa) (hname : tc.fname ≠ "finish") :
    loop tools llm fns (fuel + 1) ms st it log =
      loop tools llm fns fuel
        (ms ++ [.assistant am, .tool tc.id (executeTool tools tc.fname fa)])
        (st ++ [toolStep tc.fname fa (executeTool tools tc.fname fa)])
        (it + 1) (log ++ [ms]) := by
  rw [loop, h]
  simp only [hc, hfa]
  simp [hname]

/-- The stateless loop never reports more iterations than the fuel it was
given allows. -/
theorem rloop_iterations_le (tools : List (String × Tool)) (llm : LLM)
    (fns : List Json) :
    ∀ (fuel : Nat) (ms : List Msg) (st : List AgentStep) (it : Nat)
      (log : List (List Msg)),
    ((loop tools llm fns fuel ms st it log).1).iterations ≤ it + fuel
  | 0, ms, st, it, log => by simp [rloop_zero, maxIterResult]
  | fuel + 1, ms, st, it, log => by
    cases hllm : llm ms fns with
    | error t =>
      rw [rloop_gw_error tools llm fns fuel ms st it log t hllm]
      simp [errorResult]
    | ok am =>
      cases hcalls : am.tool_calls with
      | nil =>
        rw [rloop_direct tools llm fns fuel ms st it log am hllm hcalls]
        simp
      | cons tc rest =>
        cases hfa : tc.args with
        | error m =>
          rw [loop_argfail tools llm fns fuel ms st it log am tc rest m hllm
            hcalls hfa]
          simp [errorResult]
        | ok fa =>
          by_cases hname : tc.fname = "finish"
          · rw [loop_finish tools llm fns fuel ms st it log am tc rest fa
              hllm hcalls hfa hname]
            simp
          · rw [loop_tool tools llm fns fuel ms st it log am tc rest fa
              hllm hcalls hfa hname]
            have := rloop_iterations_le tools llm fns fuel
              (ms ++ [.assistant am, .tool tc.id (executeTool tools tc.fname fa)])
              (st ++ [toolStep tc.fname fa (executeTool tools tc.fname fa)])
              (it + 1) (log ++ [ms])
            omega

end ReactAgent

/-! ### Run-level unfoldings and one-iteration lemmas -/

theorem react_run_eq (tools : List Tool) (llm : LLM) (mi : Nat)
    (q : String) :
    ReactAgent.run tools llm mi q =
      ReactAgent.loop (pyDict (tools.map (fun t => (t.name, t)))) llm
        (ReactAgent.getFunctionSchemas (pyDict (tools.map (fun t => (t.name, t)))))
        mi
        [.system (ReactAgent.buildSystemPrompt
            (pyDict (tools.map (fun t => (t.name, t))))), .user q]
        [] 0 [] := rfl

theorem conv_run_eq (tools : List Tool) (llm : LLM)
    (mi : Nat) (rag : ConversationalAgent.RagOracle) (um : String)
    (hist : List Msg) (er : Bool) (kb : Option String) (k : Nat) :
    ConversationalAgent.run tools llm mi rag um hist er kb k =
      ConversationalAgent.loop (pyDict (tools.map (fun t => (t.name, t)))) llm
        (ConversationalAgent.getFunctionSchemas
          (pyDict (tools.map (fun t => (t.name, t))))) er kb
        (((ConversationalAgent.ragOptOf rag er kb um k).map
          (fun r => r.source_documents)).getD [])
        mi
        ([.system (ConversationalAgent.buildSystemPrompt
            (pyDict (tools.map (fun t => (t.name, t))))
            ((ConversationalAgent.ragOptOf rag er kb um k).map
              (fun r => r.context)))] ++ hist ++ [.user um])
        [] 0 [] := rfl

/-- One stateless iteration against a gateway that requests only non-finish
capabilities with parsable arguments, then fuel exhaustion. -/
theorem react_loop_one_maxiter (tools : List (String × Tool))
    (llm : LLM) (fns : List Json) (ms : List Msg) (st : List ReactAgent.AgentStep)
    (it : Nat) (log : List (List Msg))
    (h : ∃ am, llm ms fns = .ok am ∧ am.tool_calls ≠ [] ∧
      ∀ tc ∈ am.tool_calls, tc.fname ≠ "finish" ∧ ∃ fa, tc.args = .ok fa) :
    ((ReactAgent.loop tools llm fns 1 ms st it log).1).success = false ∧
    ((ReactAgent.loop tools llm fns 1 ms st it log).1).iterations = it + 1 ∧
    ((ReactAgent.loop tools llm fns 1 ms st it log).1).answer =
      .str "抱歉，我在规定的步骤内未能得出答案" ∧
    ((ReactAgent.loop tools llm fns 1 ms st it log).1).error =
      some "达到最大迭代次数" := by
  obtain ⟨am, hllm, hne, hall⟩ := h
  cases hc : am.tool_calls with
  | nil => exact absurd hc hne
  | cons tc rest =>
    obtain ⟨hname, fa, hfa⟩ := hall tc (by rw [hc]; exact List.mem_cons_self _ _)
    rw [ReactAgent.loop_tool tools llm fns 0 ms st it log am tc rest fa hllm
      hc hfa hname]
    rw [ReactAgent.rloop_zero]
    simp [ReactAgent.maxIterResult]

/-- One conversational iteration against a gateway that requests only
non-finish capabilities with parsable arguments, then fuel exhaustion. -/
theorem conv_loop_one_maxiter (tools : List (String × Tool))
    (llm : LLM) (fns : List Json) (er : Bool) (kb : Option String)
    (sd : List Json) (ms : List Msg) (st : List ConversationalAgent.CStep)
    (it : Nat) (log : List (List Msg))
    (h : ∃ am, llm ms fns = .ok am ∧ am.tool_calls ≠ [] ∧
      ∀ tc ∈ am.tool_calls, tc.fname ≠ "finish" ∧ ∃ fa, tc.args = .ok fa) :
    ((ConversationalAgent.loop tools llm fns er kb sd 1 ms st it log).1).success = false ∧
    ((ConversationalAgent.loop tools llm fns er kb sd 1 ms st it log).1).iterations = it + 1 ∧
    ((ConversationalAgent.loop tools llm fns er kb sd 1 ms st it log).1).answer =
      .str "抱歉,我在规定的步骤内未能得出答案" ∧
    ((ConversationalAgent.loop tools llm fns er kb sd 1 ms st it log).1).error =
      some "达到最大迭代次数" := by
  obtain ⟨am, hllm, hne, hall⟩ := h
  cases hc : am.tool_calls with
  | nil => exact absurd hc hne
  | cons tc rest =>
    have hall' : ∀ x ∈ tc :: rest, x.fname ≠ "finish" ∧ ∃ fa, x.args = .ok fa := by
      rw [← hc]; exact hall
    have hp : ConversationalAgent.processCalls tools er kb sd (it + 1)
        (tc :: rest) (ms ++ [.assistant am]) st =
        .next ((ms ++ [.assistant am]) ++
            (tc :: rest).map (ConversationalAgent.toolTurn tools))
          (st ++ (tc :: rest).map (ConversationalAgent.stepOf tools (it + 1))) := by
      have := ConversationalAgent.processCalls_append tools er kb sd (it + 1)
        (tc :: rest) [] (ms ++ [.assistant am]) st hall'
      simpa using this
    rw [ConversationalAgent.loop_acting tools llm fns er kb sd 0 ms st it log
      am tc rest hllm hc]
    simp only [hp]
    rw [ConversationalAgent.cloop_zero]
    simp [ConversationalAgent.maxIterResult]

/-! ## Claim theorems -/

/-- C4: `Tool.run` never propagates an exception: a missing required
parameter (validation raise) or a raise inside `_execute` is converted into
a `ToolOutput` with `success = false` and a non-empty descriptive error
string. -/
theorem claim4_tool_run_never_raises (t : Tool) (params : ArgMap)
    (h : (∃ p ∈ t.requiredParams,
            params.any (fun kv => isStrEq p kv.1) = false) ∨
         (∃ e, t.execute params = .error e)) :
    (t.run params).success = false ∧
    ∃ msg, (t.run params).error = some msg ∧ msg ≠ "" := by
  cases hm : t.firstMissing params with
  | some p =>
    have hv : t.validateParameters params =
        .error ("缺少必需参数: " ++ fmtParam p) := by
      simp [Tool.validateParameters, hm]
    have hr : t.run params =
        { success := false, result := .null,
          error := some (t.name ++ " 执行失败: " ++
            ("缺少必需参数: " ++ fmtParam p)) } := by
      simp [Tool.run, hv]
    rw [hr]
    exact ⟨rfl, _, rfl, append3_ne_empty _ _ _ (by decide)⟩
  | none =>
    cases h with
    | inl hmiss =>
      exfalso
      obtain ⟨p, hp, hpred⟩ := hmiss
      rw [Tool.firstMissing] at hm
      have := List.find?_eq_none.mp hm p hp
      simp [hpred] at this
    | inr he =>
      obtain ⟨e, he⟩ := he
      have hv : t.validateParameters params = .ok () := by
        simp [Tool.validateParameters, hm]
      have hr : t.run params =
          { success := false, result := .null,
            error := some (t.name ++ " 执行失败: " ++ e) } := by
        simp [Tool.run, hv, he]
      rw [hr]
      exact ⟨rfl, _, rfl, append3_ne_empty _ _ _ (by decide)⟩

/-- Witness for C4: `calculator` invoked without its required `expression`
parameter yields a failure envelope, not a raise. -/
theorem claim4_witness :
    (calcTool.run []).success = false ∧
    ∃ msg, (calcTool.run []).error = some msg ∧ msg ≠ "" :=
  claim4_tool_run_never_raises calcTool []
    (Or.inl ⟨.str "expression",
      by rw [show calcTool.requiredParams = [Json.str "expression"] from rfl]
         exact List.mem_singleton.mpr rfl,
      rfl⟩)

/-- C5: registering a second capability with an already registered name
raises the duplicate-name `ValueError` and leaves the registry contents
exactly as they were (the first registration remains). -/
theorem claim5_registry_duplicate_rejected (r : ToolRegistry) (t₁ t₂ : Tool)
    (hname : t₂.name = t₁.name) (hfree : dmem r.tools t₁.name = false) :
    (r.register t₁).1 = .ok () ∧
    ((r.register t₁).2.register t₂).1 =
      .error ("工具 " ++ t₂.name ++ " 已注册") ∧
    ((r.register t₁).2.register t₂).2 = (r.register t₁).2 := by
  have h1 : r.register t₁ =
      (.ok (), { tools := r.tools ++ [(t₁.name, t₁)] }) := by
    simp [ToolRegistry.register, hfree]
  have h2 : dmem (r.tools ++ [(t₁.name, t₁)]) t₂.name = true := by
    rw [hname]
    exact dmem_append_self r.tools t₁.name t₁
  refine ⟨by rw [h1], ?_, ?_⟩ <;>
    rw [h1] <;> simp [ToolRegistry.register, h2]

/-- Witness for C5: a fresh registry, `calculator` registered twice. -/
theorem claim5_witness :
    ((ToolRegistry.mk []).register calcTool).1 = .ok () ∧
    (((ToolRegistry.mk []).register calcTool).2.register calcTool2).1 =
      .error ("工具 " ++ calcTool2.name ++ " 已注册") ∧
    (((ToolRegistry.mk []).register calcTool).2.register calcTool2).2 =
      ((ToolRegistry.mk []).register calcTool).2 :=
  claim5_registry_duplicate_rejected (ToolRegistry.mk []) calcTool calcTool2
    rfl rfl

/-- C10 (implicit): a `finish` request whose argument map has no `answer`
key is not validated against the finish schema: both engines terminate with
`success = true` and the empty string as the final answer. -/
theorem claim10_finish_missing_answer :
    ((ReactAgent.run [] llmFinishNoAnswer 5 "你好").1.success = true ∧
     (ReactAgent.run [] llmFinishNoAnswer 5 "你好").1.answer = .str "") ∧
    ((ConversationalAgent.run [] llmFinishNoAnswer 5 ragBoom "你好" [] false
        none 3).1.success = true ∧
     (ConversationalAgent.run [] llmFinishNoAnswer 5 ragBoom "你好" [] false
        none 3).1.answer = .str "") :=
  ⟨⟨rfl, rfl⟩, rfl, rfl⟩

/-- Processing a turn whose calls are fine up to one with an unparsable
argument payload escapes the `for` loop with that exception. -/
theorem ConversationalAgent.processCalls_raised (tools : List (String × Tool))
    (er : Bool) (kb : Option String) (sd : List Json) (it : Nat)
    (pre : List ToolCall) (tc : ToolCall) (post : List ToolCall)
    (ms : List Msg) (st : List ConversationalAgent.CStep) (m : String)
    (hpre : ∀ x ∈ pre, x.fname ≠ "finish" ∧ ∃ fa, x.args = .ok fa)
    (hm : tc.args = .error m) :
    ConversationalAgent.processCalls tools er kb sd it (pre ++ tc :: post) ms st =
      .raised m (st ++ pre.map (ConversationalAgent.stepOf tools it)) := by
  rw [ConversationalAgent.processCalls_append tools er kb sd it pre (tc :: post)
    ms st hpre]
  rw [ConversationalAgent.processCalls, hm]

/-- C3: every terminal outcome of either engine reports
`iterations ≤ max_iterations`; and with `max_iterations = 1` against a
gateway that always returns a non-finish invocation request, both engines
terminate with `success = false`, `iterations = 1`, the fixed
maximum-iterations answer text, and a non-empty error field. -/
theorem claim3_iterations_bounded :
    (∀ (tools : List Tool) (llm : LLM) (mi : Nat) (q : String),
      (ReactAgent.run tools llm mi q).1.iterations ≤ mi) ∧
    (∀ (tools : List Tool) (llm : LLM) (mi : Nat)
       (rag : ConversationalAgent.RagOracle) (um : String) (hist : List Msg)
       (er : Bool) (kb : Option String) (k : Nat),
      (ConversationalAgent.run tools llm mi rag um hist er kb k).1.iterations ≤ mi) ∧
    (∀ (tools : List Tool) (llm : LLM) (q : String),
      (∀ ms fns, ∃ am, llm ms fns = .ok am ∧ am.tool_calls ≠ [] ∧
        ∀ tc ∈ am.tool_calls, tc.fname ≠ "finish" ∧ ∃ fa, tc.args = .ok fa) →
      (ReactAgent.run tools llm 1 q).1.success = false ∧
      (ReactAgent.run tools llm 1 q).1.iterations = 1 ∧
      (ReactAgent.run tools llm 1 q).1.answer =
        .str "抱歉，我在规定的步骤内未能得出答案" ∧
      (ReactAgent.run tools llm 1 q).1.error = some "达到最大迭代次数" ∧
      "达到最大迭代次数" ≠ "") ∧
    (∀ (tools : List Tool) (llm : LLM)
       (rag : ConversationalAgent.RagOracle) (um : String) (hist : List Msg)
       (er : Bool) (kb : Option String) (k : Nat),
      (∀ ms fns, ∃ am, llm ms fns = .ok am ∧ am.tool_calls ≠ [] ∧
        ∀ tc ∈ am.tool_calls, tc.fname ≠ "finish" ∧ ∃ fa, tc.args = .ok fa) →
      (ConversationalAgent.run tools llm 1 rag um hist er kb k).1.success = false ∧
      (ConversationalAgent.run tools llm 1 rag um hist er kb k).1.iterations = 1 ∧
      (ConversationalAgent.run tools llm 1 rag um hist er kb k).1.answer =
        .str "抱歉,我在规定的步骤内未能得出答案" ∧
      (ConversationalAgent.run tools llm 1 rag um hist er kb k).1.error =
        some "达到最大迭代次数" ∧
      "达到最大迭代次数" ≠ "") := by
  refine ⟨?_, ?_, ?_, ?_⟩
  · intro tools llm mi q
    rw [react_run_eq]
    simpa using ReactAgent.rloop_iterations_le _ llm _ mi _ [] 0 []
  · intro tools llm mi rag um hist er kb k
    rw [conv_run_eq]
    simpa using ConversationalAgent.cloop_iterations_le _ llm _ er kb _ mi _ [] 0 []
  · intro tools llm q h
    rw [react_run_eq]
    have := react_loop_one_maxiter
      (pyDict (tools.map (fun t => (t.name, t)))) llm
      (ReactAgent.getFunctionSchemas (pyDict (tools.map (fun t => (t.name, t)))))
      [.system (ReactAgent.buildSystemPrompt
          (pyDict (tools.map (fun t => (t.name, t))))), .user q]
      [] 0 [] (h _ _)
    exact ⟨this.1, this.2.1, this.2.2.1, this.2.2.2, by decide⟩
  · intro tools llm rag um hist er kb k h
    rw [conv_run_eq]
    have := conv_loop_one_maxiter
      (pyDict (tools.map (fun t => (t.name, t)))) llm
      (ConversationalAgent.getFunctionSchemas
        (pyDict (tools.map (fun t => (t.name, t))))) er kb
      (((ConversationalAgent.ragOptOf rag er kb um k).map
        (fun r => r.source_documents)).getD [])
      ([.system (ConversationalAgent.buildSystemPrompt
          (pyDict (tools.map (fun t => (t.name, t))))
          ((ConversationalAgent.ragOptOf rag er kb um k).map
            (fun r => r.context)))] ++ hist ++ [.user um])
      [] 0 [] (h _ _)
    exact ⟨this.1, this.2.1, this.2.2.1, this.2.2.2, by decide⟩

/-- Witness for C3: `max_iterations = 1` against a gateway that always
requests `calculator`, in both engines. -/
theorem claim3_witness :
    (ReactAgent.run [calcTool] llmAlwaysCall 1 "计算21乘2").1.iterations ≤ 1 ∧
    (ReactAgent.run [calcTool] llmAlwaysCall 1 "计算21乘2").1.success = false ∧
    (ReactAgent.run [calcTool] llmAlwaysCall 1 "计算21乘2").1.iterations = 1 ∧
    (ConversationalAgent.run [calcTool] llmAlwaysCall 1 ragOkFix "计算21乘2"
      [] false none 3).1.success = false ∧
    (ConversationalAgent.run [calcTool] llmAlwaysCall 1 ragOkFix "计算21乘2"
      [] false none 3).1.iterations = 1 := by
  have hgw : ∀ (ms : List Msg) (fns : List Json), ∃ am,
      llmAlwaysCall ms fns = .ok am ∧ am.tool_calls ≠ [] ∧
      ∀ tc ∈ am.tool_calls, tc.fname ≠ "finish" ∧ ∃ fa, tc.args = .ok fa := by
    intro ms fns
    refine ⟨_, rfl, by simp, ?_⟩
    intro tc htc
    rcases List.mem_singleton.mp htc with rfl
    exact ⟨by decide, [("expression", .str "21*2")], rfl⟩
  have hr := (claim3_iterations_bounded.2.2.1) [calcTool] llmAlwaysCall
    "计算21乘2" hgw
  have hc := (claim3_iterations_bounded.2.2.2) [calcTool] llmAlwaysCall
    ragOkFix "计算21乘2" [] false none 3 hgw
  exact ⟨claim3_iterations_bounded.1 [calcTool] llmAlwaysCall 1 "计算21乘2",
    hr.1, hr.2.1, hc.1, hc.2.1⟩

/-- C7: a non-200 gateway response, or an invocation-request argument string
that `json.loads` cannot parse, aborts the run of either engine as a
run-level error: `success = false`, an answer text explaining the failure,
and a non-empty error string carrying the exception message. -/
theorem claim7_faults_abort :
    (∀ (tools : List (String × Tool)) (llm : LLM) (fns : List Json)
       (fuel : Nat) (ms : List Msg) (st : List ReactAgent.AgentStep)
       (it : Nat) (log : List (List Msg)) (t : String),
      llm ms fns = .error t →
      ((ReactAgent.loop tools llm fns (fuel + 1) ms st it log).1).success = false ∧
      ((ReactAgent.loop tools llm fns (fuel + 1) ms st it log).1).answer =
        .str ("执行过程中发生错误: " ++ ("LLM调用失败: " ++ t)) ∧
      ((ReactAgent.loop tools llm fns (fuel + 1) ms st it log).1).error =
        some ("LLM调用失败: " ++ t) ∧ ("LLM调用失败: " ++ t) ≠ "") ∧
    (∀ (tools : List (String × Tool)) (llm : LLM) (fns : List Json)
       (fuel : Nat) (ms : List Msg) (st : List ReactAgent.AgentStep)
       (it : Nat) (log : List (List Msg)) (am : AssistantMsg) (tc : ToolCall)
       (rest : List ToolCall) (m : String),
      llm ms fns = .ok am → am.tool_calls = tc :: rest →
      tc.args = .error m → m ≠ "" →
      ((ReactAgent.loop tools llm fns (fuel + 1) ms st it log).1).success = false ∧
      ((ReactAgent.loop tools llm fns (fuel + 1) ms st it log).1).answer =
        .str ("执行过程中发生错误: " ++ m) ∧
      ((ReactAgent.loop tools llm fns (fuel + 1) ms st it log).1).error =
        some m) ∧
    (∀ (tools : List (String × Tool)) (llm : LLM) (fns : List Json)
       (er : Bool) (kb : Option String) (sd : List Json)
       (fuel : Nat) (ms : List Msg) (st : List ConversationalAgent.CStep)
       (it : Nat) (log : List (List Msg)) (t : String),
      llm ms fns = .error t →
      ((ConversationalAgent.loop tools llm fns er kb sd (fuel + 1) ms st it log).1).success = false ∧
      ((ConversationalAgent.loop tools llm fns er kb sd (fuel + 1) ms st it log).1).answer =
        .str ("执行过程中发生错误: " ++ ("LLM调用失败: " ++ t)) ∧
      ((ConversationalAgent.loop tools llm fns er kb sd (fuel + 1) ms st it log).1).error =
        some ("LLM调用失败: " ++ t) ∧ ("LLM调用失败: " ++ t) ≠ "") ∧
    (∀ (tools : List (String × Tool)) (llm : LLM) (fns : List Json)
       (er : Bool) (kb : Option String) (sd : List Json)
       (fuel : Nat) (ms : List Msg) (st : List ConversationalAgent.CStep)
       (it : Nat) (log : List (List Msg)) (am : AssistantMsg)
       (pre : List ToolCall) (tc : ToolCall) (post : List ToolCall) (m : String),
      llm ms fns = .ok am → am.tool_calls = pre ++ tc :: post →
      (∀ x ∈ pre, x.fname ≠ "finish" ∧ ∃ fa, x.args = .ok fa) →
      tc.args = .error m → m ≠ "" →
      ((ConversationalAgent.loop tools llm fns er kb sd (fuel + 1) ms st it log).1).success = false ∧
      ((ConversationalAgent.loop tools llm fns er kb sd (fuel + 1) ms st it log).1).answer =
        .str ("执行过程中发生错误: " ++ m) ∧
      ((ConversationalAgent.loop tools llm fns er kb sd (fuel + 1) ms st it log).1).error =
        some m) := by
  refine ⟨?_, ?_, ?_, ?_⟩
  · intro tools llm fns fuel ms st it log t h
    rw [ReactAgent.rloop_gw_error tools llm fns fuel ms st it log t h]
    refine ⟨rfl, rfl, rfl, append_ne_empty_left _ _ (by decide)⟩
  · intro tools llm fns fuel ms st it log am tc rest m h hc hm _
    rw [ReactAgent.loop_argfail tools llm fns fuel ms st it log am tc rest m
      h hc hm]
    exact ⟨rfl, rfl, rfl⟩
  · intro tools llm fns er kb sd fuel ms st it log t h
    rw [ConversationalAgent.cloop_gw_error tools llm fns er kb sd fuel ms st
      it log t h]
    refine ⟨rfl, rfl, rfl, append_ne_empty_left _ _ (by decide)⟩
  · intro tools llm fns er kb sd fuel ms st it log am pre tc post m h hc
      hpre hm _
    rcases hlist : pre ++ tc :: post with _ | ⟨tc₀, rest₀⟩
    · exact absurd hlist (by simp)
    · rw [ConversationalAgent.loop_acting tools llm fns er kb sd fuel ms st
        it log am tc₀ rest₀ h (by rw [hc, hlist])]
      have hp := ConversationalAgent.processCalls_raised tools er kb sd
        (it + 1) pre tc post (ms ++ [.assistant am]) st m hpre hm
      rw [hlist] at hp
      simp only [hp]
      exact ⟨rfl, rfl, rfl⟩

/-- Witness for C7: a 500-status gateway and an unparsable argument payload,
each at a concrete loop state of each engine. -/
theorem claim7_witness :
    (((ReactAgent.loop [] llmGwFail [] 1 [] [] 0 []).1).success = false ∧
     ((ReactAgent.loop [] llmGwFail [] 1 [] [] 0 []).1).error =
       some ("LLM调用失败: " ++ "Internal Server Error")) ∧
    (((ReactAgent.loop [] llmBadArgs [] 1 [] [] 0 []).1).success = false ∧
     ((ReactAgent.loop [] llmBadArgs [] 1 [] [] 0 []).1).error =
       some "Expecting value: line 1 column 1 (char 0)") ∧
    (((ConversationalAgent.loop [] llmGwFail [] false none [] 1 [] [] 0 []).1).success = false) ∧
    (((ConversationalAgent.loop [] llmBadArgs [] false none [] 1 [] [] 0 []).1).error =
       some "Expecting value: line 1 column 1 (char 0)") := by
  have h1 := claim7_faults_abort.1 [] llmGwFail [] 0 [] [] 0 []
    "Internal Server Error" rfl
  have h2 := claim7_faults_abort.2.1 [] llmBadArgs [] 0 [] [] 0 []
    ⟨none, [⟨"id_1", "calculator",
      .error "Expecting value: line 1 column 1 (char 0)"⟩]⟩
    ⟨"id_1", "calculator", .error "Expecting value: line 1 column 1 (char 0)"⟩
    [] "Expecting value: line 1 column 1 (char 0)" rfl rfl rfl (by decide)
  have h3 := claim7_faults_abort.2.2.1 [] llmGwFail [] false none [] 0 [] []
    0 [] "Internal Server Error" rfl
  have h4 := claim7_faults_abort.2.2.2 [] llmBadArgs [] false none [] 0 [] []
    0 []
    ⟨none, [⟨"id_1", "calculator",
      .error "Expecting value: line 1 column 1 (char 0)"⟩]⟩
    [] ⟨"id_1", "calculator", .error "Expecting value: line 1 column 1 (char 0)"⟩
    [] "Expecting value: line 1 column 1 (char 0)" rfl rfl (by simp) rfl
    (by decide)
  exact ⟨⟨h1.1, h1.2.2.1⟩, ⟨h2.1, h2.2.2⟩, h3.1, h4.2.2⟩

/-- C6: a model request for an unregistered capability name does not abort
the run: the invocation yields the failure-tagged observation, which is
recorded in the trace step and appended as the tool-result turn, and the
loop recurses into the next iteration. -/
theorem claim6_lookup_miss_degrades :
    (∀ (tools : List (String × Tool)) (name : String) (fa : ArgMap),
      dget tools name = none →
      ConversationalAgent.executeTool tools name fa =
        Json.dumps (.obj [("success", .bool false),
          ("error", .str ("工具 \x27" ++ name ++ "\x27 不存在"))]) ∧
      ReactAgent.executeTool tools name fa =
        "错误：工具 \x27" ++ name ++ "\x27 不存在") ∧
    (∀ (tools : List (String × Tool)) (llm : LLM) (fns : List Json)
       (er : Bool) (kb : Option String) (sd : List Json) (fuel : Nat)
       (ms : List Msg) (st : List ConversationalAgent.CStep) (it : Nat)
       (log : List (List Msg)) (am : AssistantMsg) (tc : ToolCall)
       (fa : ArgMap),
      llm ms fns = .ok am → am.tool_calls = [tc] → tc.fname ≠ "finish" →
      tc.args = .ok fa → dget tools tc.fname = none →
      ConversationalAgent.loop tools llm fns er kb sd (fuel + 1) ms st it log =
        ConversationalAgent.loop tools llm fns er kb sd fuel
          ((ms ++ [.assistant am]) ++
            [.tool tc.id (Json.dumps (.obj [("success", .bool false),
              ("error", .str ("工具 \x27" ++ tc.fname ++ "\x27 不存在"))]))])
          (st ++ [{ iteration := it + 1, action := tc.fname, input := fa,
                    observation := some (Json.dumps (.obj
                      [("success", .bool false),
                       ("error", .str ("工具 \x27" ++ tc.fname ++
                         "\x27 不存在"))])) }])
          (it + 1) (log ++ [ms])) ∧
    (∀ (tools : List (String × Tool)) (llm : LLM) (fns : List Json)
       (fuel : Nat) (ms : List Msg) (st : List ReactAgent.AgentStep)
       (it : Nat) (log : List (List Msg)) (am : AssistantMsg) (tc : ToolCall)
       (rest : List ToolCall) (fa : ArgMap),
      llm ms fns = .ok am → am.tool_calls = tc :: rest →
      tc.fname ≠ "finish" → tc.args = .ok fa → dget tools tc.fname = none →
      ReactAgent.loop tools llm fns (fuel + 1) ms st it log =
        ReactAgent.loop tools llm fns fuel
          (ms ++ [.assistant am,
            .tool tc.id ("错误：工具 \x27" ++ tc.fname ++ "\x27 不存在")])
          (st ++ [ReactAgent.toolStep tc.fname fa
            ("错误：工具 \x27" ++ tc.fname ++ "\x27 不存在")])
          (it + 1) (log ++ [ms])) := by
  refine ⟨?_, ?_, ?_⟩
  · intro tools name fa hmiss
    constructor
    · simp [ConversationalAgent.executeTool, hmiss]
    · simp [ReactAgent.executeTool, hmiss]
  · intro tools llm fns er kb sd fuel ms st it log am tc fa hllm hc hname hfa
      hmiss
    have hobs : ConversationalAgent.executeTool tools tc.fname fa =
        Json.dumps (.obj [("success", .bool false),
          ("error", .str ("工具 \x27" ++ tc.fname ++ "\x27 不存在"))]) := by
      simp [ConversationalAgent.executeTool, hmiss]
    have hall : ∀ x ∈ [tc], x.fname ≠ "finish" ∧ ∃ fa, x.args = .ok fa := by
      intro x hx
      rcases List.mem_singleton.mp hx with rfl
      exact ⟨hname, fa, hfa⟩
    have hp : ConversationalAgent.processCalls tools er kb sd (it + 1) [tc]
        (ms ++ [.assistant am]) st =
        .next ((ms ++ [.assistant am]) ++
            [ConversationalAgent.toolTurn tools tc])
          (st ++ [ConversationalAgent.stepOf tools (it + 1) tc]) := by
      have := ConversationalAgent.processCalls_append tools er kb sd (it + 1)
        [tc] [] (ms ++ [.assistant am]) st hall
      simpa using this
    rw [ConversationalAgent.loop_acting tools llm fns er kb sd fuel ms st it
      log am tc [] hllm hc]
    simp only [hp]
    have hturn : ConversationalAgent.toolTurn tools tc =
        .tool tc.id (Json.dumps (.obj [("success", .bool false),
          ("error", .str ("工具 \x27" ++ tc.fname ++ "\x27 不存在"))])) := by
      simp [ConversationalAgent.toolTurn, ConversationalAgent.obsOf, hfa, hobs]
    have hstep : ConversationalAgent.stepOf tools (it + 1) tc =
        { iteration := it + 1, action := tc.fname, input := fa,
          observation := some (Json.dumps (.obj
            [("success", .bool false),
             ("error", .str ("工具 \x27" ++ tc.fname ++
               "\x27 不存在"))])) } := by
      simp [ConversationalAgent.stepOf, hfa, hobs]
    rw [hturn, hstep]
  · intro tools llm fns fuel ms st it log am tc rest fa hllm hc hname hfa
      hmiss
    have hobs : ReactAgent.executeTool tools tc.fname fa =
        "错误：工具 \x27" ++ tc.fname ++ "\x27 不存在" := by
      simp [ReactAgent.executeTool, hmiss]
    have := ReactAgent.loop_tool tools llm fns fuel ms st it log am tc rest
      fa hllm hc hfa hname
    rw [hobs] at this
    exact this

/-- Witness for C6: `calculator` requested against an empty tool dict in
both engines, each continuing into the next iteration with the
failure-tagged observation. -/
theorem claim6_witness :
    (ConversationalAgent.executeTool [] "calculator" [] =
      Json.dumps (.obj [("success", .bool false),
        ("error", .str ("工具 \x27" ++ "calculator" ++ "\x27 不存在"))])) ∧
    (ConversationalAgent.loop [] llmAlwaysCall [] false none [] 2 [] [] 0 [] =
      ConversationalAgent.loop [] llmAlwaysCall [] false none [] 1
        (([] ++ [.assistant ⟨none, [⟨"id_1", "calculator",
            .ok [("expression", .str "21*2")]⟩]⟩]) ++
          [.tool "id_1" (Json.dumps (.obj [("success", .bool false),
            ("error", .str ("工具 \x27" ++ "calculator" ++ "\x27 不存在"))]))])
        ([] ++ [{ iteration := 1, action := "calculator",
                  input := [("expression", .str "21*2")],
                  observation := some (Json.dumps (.obj
                    [("success", .bool false),
                     ("error", .str ("工具 \x27" ++ "calculator" ++
                       "\x27 不存在"))])) }])
        1 ([] ++ [[]])) ∧
    (ReactAgent.loop [] llmAlwaysCall [] 2 [] [] 0 [] =
      ReactAgent.loop [] llmAlwaysCall [] 1
        ([] ++ [.assistant ⟨none, [⟨"id_1", "calculator",
            .ok [("expression", .str "21*2")]⟩]⟩,
          .tool "id_1" ("错误：工具 \x27" ++ "calculator" ++ "\x27 不存在")])
        ([] ++ [ReactAgent.toolStep "calculator"
          [("expression", .str "21*2")]
          ("错误：工具 \x27" ++ "calculator" ++ "\x27 不存在")])
        1 ([] ++ [[]])) := by
  refine ⟨?_, ?_, ?_⟩
  · exact (claim6_lookup_miss_degrades.1 [] "calculator" [] rfl).1
  · exact claim6_lookup_miss_degrades.2.1 [] llmAlwaysCall [] false none []
      1 [] [] 0 []
      ⟨none, [⟨"id_1", "calculator", .ok [("expression", .str "21*2")]⟩]⟩
      ⟨"id_1", "calculator", .ok [("expression", .str "21*2")]⟩
      [("expression", .str "21*2")] rfl rfl (by decide) rfl rfl
  · exact claim6_lookup_miss_degrades.2.2 [] llmAlwaysCall [] 1 [] [] 0 []
      ⟨none, [⟨"id_1", "calculator", .ok [("expression", .str "21*2")]⟩]⟩
      ⟨"id_1", "calculator", .ok [("expression", .str "21*2")]⟩
      [] [("expression", .str "21*2")] rfl rfl (by decide) rfl rfl

/-- C2: when processing a turn's invocation requests in order meets a
`finish` request, both engines record a trace step for it and return
immediately with `success = true` and the declared `answer` argument as the
final answer; the requests after the `finish` in the same turn are not
executed and leave no trace entry. -/
theorem claim2_finish_first_wins :
    (∀ (tools : List (String × Tool)) (er : Bool) (kb : Option String)
       (sd : List Json) (it : Nat) (pre : List ToolCall) (fc : ToolCall)
       (post : List ToolCall) (ms : List Msg)
       (st : List ConversationalAgent.CStep) (fa : ArgMap) (v : Json),
      (∀ x ∈ pre, x.fname ≠ "finish" ∧ ∃ fa, x.args = .ok fa) →
      fc.fname = "finish" → fc.args = .ok fa → dget fa "answer" = some v →
      ConversationalAgent.processCalls tools er kb sd it (pre ++ fc :: post)
        ms st =
        .done (ConversationalAgent.successResult v
          (st ++ pre.map (ConversationalAgent.stepOf tools it) ++
            [{ iteration := it, action := "finish", input := fa,
               observation := none }])
          it er kb sd)) ∧
    (∀ (tools : List (String × Tool)) (llm : LLM) (fns : List Json)
       (fuel : Nat) (ms : List Msg) (st : List ReactAgent.AgentStep)
       (it : Nat) (log : List (List Msg)) (am : AssistantMsg) (tc : ToolCall)
       (rest : List ToolCall) (fa : ArgMap) (v : Json),
      llm ms fns = .ok am → am.tool_calls = tc :: rest →
      tc.fname = "finish" → tc.args = .ok fa → dget fa "answer" = some v →
      ReactAgent.loop tools llm fns (fuel + 1) ms st it log =
        ({ success := true, answer := v,
           steps := st ++ [ReactAgent.finishStep v], iterations := it + 1,
           error := none }, log ++ [ms])) := by
  constructor
  · intro tools er kb sd it pre fc post ms st fa v hpre hfc hfa hv
    rw [ConversationalAgent.processCalls_append tools er kb sd it pre
      (fc :: post) ms st hpre]
    rw [ConversationalAgent.processCalls, hfa]
    have hbeq : (fc.fname == "finish") = true := by simp [hfc]
    simp only [hbeq, if_true, hv, hfc]
    simp [Option.getD]
  · intro tools llm fns fuel ms st it log am tc rest fa v hllm hc hfc hfa hv
    rw [ReactAgent.loop_finish tools llm fns fuel ms st it log am tc rest fa
      hllm hc hfa hfc]
    rw [hv]
    simp [Option.getD]

/-- Witness for C2: one executed call, then `finish(answer = "42")`, then a
superseded call; and a stateless turn headed by the same `finish`. -/
theorem claim2_witness :
    (ConversationalAgent.processCalls [] false none [] 1
        ([⟨"id_a", "lookup_a", .ok []⟩] ++
          ⟨"id_f", "finish", .ok [("answer", .str "42")]⟩ ::
            [⟨"id_x", "calculator", .ok [("expression", .str "1+1")]⟩]) [] [] =
      .done (ConversationalAgent.successResult (.str "42")
        ([] ++ [⟨"id_a", "lookup_a", .ok []⟩].map
            (ConversationalAgent.stepOf [] 1) ++
          [{ iteration := 1, action := "finish",
             input := [("answer", .str "42")], observation := none }])
        1 false none [])) ∧
    (ReactAgent.loop [] llmFinishAnswer [] 3 [] [] 0 [] =
      ({ success := true, answer := .str "42",
         steps := [] ++ [ReactAgent.finishStep (.str "42")], iterations := 1,
         error := none }, [] ++ [[]])) := by
  constructor
  · exact claim2_finish_first_wins.1 [] false none [] 1
      [⟨"id_a", "lookup_a", .ok []⟩] ⟨"id_f", "finish",
        .ok [("answer", .str "42")]⟩
      [⟨"id_x", "calculator", .ok [("expression", .str "1+1")]⟩] [] []
      [("answer", .str "42")] (.str "42")
      (by intro x hx
          rcases List.mem_singleton.mp hx with rfl
          exact ⟨by decide, [], rfl⟩)
      rfl rfl rfl
  · exact claim2_finish_first_wins.2 [] llmFinishAnswer [] 2 [] [] 0 []
      ⟨none, [⟨"id_f", "finish", .ok [("answer", .str "42")]⟩,
              ⟨"id_x", "calculator", .ok [("expression", .str "1+1")]⟩]⟩
      ⟨"id_f", "finish", .ok [("answer", .str "42")]⟩
      [⟨"id_x", "calculator", .ok [("expression", .str "1+1")]⟩]
      [("answer", .str "42")] (.str "42") rfl rfl rfl rfl rfl

/-- C1 counterexample: against `llmTwoCalls` the stateless engine receives
an assistant turn carrying two non-finish invocation requests (`id_a`,
`id_b`), yet the message list of the next model call contains exactly one
tool-result turn and none whose correlation identifier is `id_b`: the
stateless engine does not execute every invocation request of the turn,
refuting the claim as stated. -/
theorem claim1_counterexample :
    (ReactAgent.run [] llmTwoCalls 5 "查询").2.length = 2 ∧
    (((ReactAgent.run [] llmTwoCalls 5 "查询").2.getD 1 []).map
      callsOfTurn).sum = 2 ∧
    ((ReactAgent.run [] llmTwoCalls 5 "查询").2.getD 1 []).countP
      isToolMsg = 1 ∧
    ((ReactAgent.run [] llmTwoCalls 5 "查询").2.getD 1 []).countP
      (isToolMsgFor "id_b") = 0 ∧
    ((ReactAgent.run [] llmTwoCalls 5 "查询").2.getD 1 []).countP
      (isToolMsgFor "id_a") = 1 :=
  ⟨rfl, rfl, rfl, rfl, rfl⟩

/-- C1 amended: for an assistant turn with invocation requests, no finish
request and parsable argument payloads, the conversational engine executes
every request in order and appends, before returning to the model, exactly
one tool-result turn per request whose correlation identifier equals the id
of the request it answers; the stateless engine executes only the first
request of the turn and appends exactly one tool-result turn, answering that
first request. -/
theorem claim1_amended :
    (∀ (tools : List (String × Tool)) (er : Bool) (kb : Option String)
       (sd : List Json) (it : Nat) (calls : List ToolCall) (ms : List Msg)
       (st : List ConversationalAgent.CStep),
      (∀ tc ∈ calls, tc.fname ≠ "finish" ∧ ∃ fa, tc.args = .ok fa) →
      ConversationalAgent.processCalls tools er kb sd it calls ms st =
        .next (ms ++ calls.map (ConversationalAgent.toolTurn tools))
          (st ++ calls.map (ConversationalAgent.stepOf tools it)) ∧
      (calls.map (ConversationalAgent.toolTurn tools)).length = calls.length ∧
      (∀ i, (calls.map (ConversationalAgent.toolTurn tools)).get? i =
        (calls.get? i).map (fun tc =>
          Msg.tool tc.id (ConversationalAgent.obsOf tools tc)))) ∧
    (∀ (tools : List (String × Tool)) (llm : LLM) (fns : List Json)
       (fuel : Nat) (ms : List Msg) (st : List ReactAgent.AgentStep)
       (it : Nat) (log : List (List Msg)) (am : AssistantMsg) (tc : ToolCall)
       (rest : List ToolCall) (fa : ArgMap),
      llm ms fns = .ok am → am.tool_calls = tc :: rest →
      tc.fname ≠ "finish" → tc.args = .ok fa →
      ReactAgent.loop tools llm fns (fuel + 1) ms st it log =
        ReactAgent.loop tools llm fns fuel
          (ms ++ [.assistant am,
            .tool tc.id (ReactAgent.executeTool tools tc.fname fa)])
          (st ++ [ReactAgent.toolStep tc.fname fa
            (ReactAgent.executeTool tools tc.fname fa)])
          (it + 1) (log ++ [ms])) := by
  constructor
  · intro tools er kb sd it calls ms st hall
    refine ⟨?_, by simp, ?_⟩
    · have := ConversationalAgent.processCalls_append tools er kb sd it
        calls [] ms st hall
      simpa using this
    · intro i
      simp only [List.get?_map]
      cases calls.get? i <;> rfl
  · intro tools llm fns fuel ms st it log am tc rest fa hllm hc hname hfa
    exact ReactAgent.loop_tool tools llm fns fuel ms st it log am tc rest fa
      hllm hc hfa hname

/-- Witness for the amended C1: a concrete two-request turn processed by the
conversational ACTING state, and the first stateless step against
`llmTwoCalls`. -/
theorem claim1_amended_witness :
    (ConversationalAgent.processCalls [] false none [] 1
        [⟨"id_a", "lookup_a", .ok []⟩, ⟨"id_b", "lookup_b", .ok []⟩] [] [] =
      .next ([] ++ [⟨"id_a", "lookup_a", .ok []⟩,
          ⟨"id_b", "lookup_b", .ok []⟩].map
          (ConversationalAgent.toolTurn []))
        ([] ++ [⟨"id_a", "lookup_a", .ok []⟩,
          ⟨"id_b", "lookup_b", .ok []⟩].map
          (ConversationalAgent.stepOf [] 1))) ∧
    (ReactAgent.loop [] llmTwoCalls [] 5 [.system "s", .user "q"] [] 0 [] =
      ReactAgent.loop [] llmTwoCalls [] 4
        ([.system "s", .user "q"] ++
          [.assistant ⟨none, [⟨"id_a", "lookup_a", .ok []⟩,
            ⟨"id_b", "lookup_b", .ok []⟩]⟩,
           .tool "id_a" (ReactAgent.executeTool [] "lookup_a" [])])
        ([] ++ [ReactAgent.toolStep "lookup_a" []
          (ReactAgent.executeTool [] "lookup_a" [])])
        1 ([] ++ [[.system "s", .user "q"]])) := by
  constructor
  · exact (claim1_amended.1 [] false none [] 1
      [⟨"id_a", "lookup_a", .ok []⟩, ⟨"id_b", "lookup_b", .ok []⟩] [] []
      (by intro tc htc
          rcases List.mem_cons.mp htc with rfl | htc
          · exact ⟨by decide, [], rfl⟩
          · rcases List.mem_singleton.mp htc with rfl
            exact ⟨by decide, [], rfl⟩)).1
  · exact claim1_amended.2 [] llmTwoCalls [] 4 [.system "s", .user "q"] [] 0
      []
      ⟨none, [⟨"id_a", "lookup_a", .ok []⟩, ⟨"id_b", "lookup_b", .ok []⟩]⟩
      ⟨"id_a", "lookup_a", .ok []⟩ [⟨"id_b", "lookup_b", .ok []⟩] []
      rfl rfl (by decide) rfl

/-- C8: a conversational run consults the retrieval provider through at most
one query (the run is fully determined by the provider's value at
`(kb_name, user_message, top_k)`, evaluated before any model call and folded
into the system turn); if the provider raises, the exception is caught, the
run proceeds with no retrieval context — every gateway request still starts
with the context-free system turn — and the result reports an empty
source-document list. -/
theorem claim8_rag_once_and_degrades :
    (∀ (tools : List Tool) (llm : LLM) (mi : Nat)
       (rag rag' : ConversationalAgent.RagOracle) (um : String)
       (hist : List Msg) (er : Bool) (kb : Option String) (k : Nat),
      (∀ kbv, kb = some kbv → rag kbv um k = rag' kbv um k) →
      ConversationalAgent.run tools llm mi rag um hist er kb k =
        ConversationalAgent.run tools llm mi rag' um hist er kb k) ∧
    (∀ (tools : List Tool) (llm : LLM) (mi : Nat)
       (rag : ConversationalAgent.RagOracle) (um : String) (hist : List Msg)
       (kbv : String) (k : Nat) (e : String),
      rag kbv um k = .error e →
      ConversationalAgent.ragOptOf rag true (some kbv) um k = none ∧
      (ConversationalAgent.run tools llm mi rag um hist true (some kbv)
        k).1.source_documents = [] ∧
      (∀ e₁ ∈ (ConversationalAgent.run tools llm mi rag um hist true
          (some kbv) k).2,
        ∃ ext, e₁ =
          [Msg.system (ConversationalAgent.buildSystemPrompt
            (pyDict (tools.map (fun t => (t.name, t)))) none)] ++
          hist ++ [Msg.user um] ++ ext)) := by
  constructor
  · intro tools llm mi rag rag' um hist er kb k h
    have hra : ConversationalAgent.ragOptOf rag er kb um k =
        ConversationalAgent.ragOptOf rag' er kb um k := by
      cases kb with
      | none => rfl
      | some kbv =>
        simp only [ConversationalAgent.ragOptOf,
          ConversationalAgent.getRagContext]
        rw [h kbv rfl]
    rw [conv_run_eq, conv_run_eq, hra]
  · intro tools llm mi rag um hist kbv k e he
    have hnone : ConversationalAgent.ragOptOf rag true (some kbv) um k =
        none := by
      simp only [ConversationalAgent.ragOptOf,
        ConversationalAgent.getRagContext, he]
      split <;> rfl
    refine ⟨hnone, ?_, ?_⟩
    · rw [conv_run_eq, hnone]
      simp only [Option.map_none', Option.getD_none]
      exact ConversationalAgent.loop_sd_nil _ llm _ true (some kbv) mi _ []
        0 []
    · intro e₁ he₁
      rw [conv_run_eq, hnone] at he₁
      simp only [Option.map_none', Option.getD_none] at he₁
      have := ConversationalAgent.loop_log_extends _ llm _ true (some kbv) []
        ([Msg.system (ConversationalAgent.buildSystemPrompt
            (pyDict (tools.map (fun t => (t.name, t)))) none)] ++
          hist ++ [Msg.user um])
        mi _ [] 0 [] (by simp) ⟨[], by simp⟩ e₁ he₁
      obtain ⟨ext, hext⟩ := this
      exact ⟨ext, hext⟩

/-- Witness for C8: two providers that agree at the queried point give
byte-identical runs, and a raising provider degrades to the context-free
run with an empty source-document list. -/
theorem claim8_witness :
    (ConversationalAgent.run [] llmDirect 3 ragBoom "问题" [] true
        (some "kb1") 3 =
      ConversationalAgent.run [] llmDirect 3
        (fun kb q n => if n == 999 then .ok ⟨"x", []⟩ else ragBoom kb q n)
        "问题" [] true (some "kb1") 3) ∧
    ConversationalAgent.ragOptOf ragBoom true (some "kb1") "问题" 3 = none ∧
    (ConversationalAgent.run [] llmDirect 3 ragBoom "问题" [] true
      (some "kb1") 3).1.source_documents = [] := by
  have h8 := claim8_rag_once_and_degrades
  refine ⟨?_, ?_, ?_⟩
  · exact h8.1 [] llmDirect 3 ragBoom
      (fun kb q n => if n == 999 then .ok ⟨"x", []⟩ else ragBoom kb q n)
      "问题" [] true (some "kb1") 3
      (by intro kbv hk
          cases hk
          rfl)
  · exact (h8.2 [] llmDirect 3 ragBoom "问题" [] "kb1" 3
      "RAG查询失败: 连接失败" rfl).1
  · exact (h8.2 [] llmDirect 3 ragBoom "问题" [] "kb1" 3
      "RAG查询失败: 连接失败" rfl).2.1

/-- C9: every message list a conversational run sends to the model extends
`[system turn] ++ conversation_history ++ [new user turn]`: the system turn
first, then the caller-supplied history verbatim and in order, then the new
user turn, then only turns produced by this run.  (The embedding threads
the run-local `messages` list separately from the caller's history value,
which is read once and never rebuilt — the pure-translation image of
`messages.extend(conversation_history)` leaving the argument unmutated.) -/
theorem claim9_history_threading (tools : List Tool) (llm : LLM) (mi : Nat)
    (rag : ConversationalAgent.RagOracle) (um : String) (hist : List Msg)
    (er : Bool) (kb : Option String) (k : Nat) :
    ∀ e ∈ (ConversationalAgent.run tools llm mi rag um hist er kb k).2,
      ∃ ext, e =
        [Msg.system (ConversationalAgent.buildSystemPrompt
          (pyDict (tools.map (fun t => (t.name, t))))
          ((ConversationalAgent.ragOptOf rag er kb um k).map
            (fun r => r.context)))] ++ hist ++ [Msg.user um] ++ ext := by
  intro e he
  rw [conv_run_eq] at he
  have := ConversationalAgent.loop_log_extends _ llm _ er kb _
    ([Msg.system (ConversationalAgent.buildSystemPrompt
        (pyDict (tools.map (fun t => (t.name, t))))
        ((ConversationalAgent.ragOptOf rag er kb um k).map
          (fun r => r.context)))] ++ hist ++ [Msg.user um])
    mi _ [] 0 [] (by simp) ⟨[], by simp⟩ e he
  obtain ⟨ext, hext⟩ := this
  exact ⟨ext, hext⟩

/-- Witness for C9: a run over a two-turn history — its single gateway
request is exactly system turn, history, new user turn. -/
theorem claim9_witness :
    ∃ ext,
      [Msg.system (ConversationalAgent.buildSystemPrompt (pyDict []) none)] ++
        [Msg.user "甲", Msg.assistant ⟨some "乙", []⟩] ++ [Msg.user "新问题"] =
      [Msg.system (ConversationalAgent.buildSystemPrompt
        (pyDict (([] : List Tool).map (fun t => (t.name, t))))
        ((ConversationalAgent.ragOptOf ragBoom false none "新问题" 3).map
          (fun r => r.context)))] ++
        [Msg.user "甲", Msg.assistant ⟨some "乙", []⟩] ++
        [Msg.user "新问题"] ++ ext := by
  have hmem :
      ([Msg.system (ConversationalAgent.buildSystemPrompt (pyDict []) none)] ++
        [Msg.user "甲", Msg.assistant ⟨some "乙", []⟩] ++ [Msg.user "新问题"]) ∈
      (ConversationalAgent.run [] llmDirect 3 ragBoom "新问题"
        [Msg.user "甲", Msg.assistant ⟨some "乙", []⟩] false none 3).2 := by
    have hlog : (ConversationalAgent.run [] llmDirect 3 ragBoom "新问题"
        [Msg.user "甲", Msg.assistant ⟨some "乙", []⟩] false none 3).2 =
        [[Msg.system (ConversationalAgent.buildSystemPrompt (pyDict []) none)] ++
          [Msg.user "甲", Msg.assistant ⟨some "乙", []⟩] ++
          [Msg.user "新问题"]] := rfl
    rw [hlog]
    exact List.mem_singleton.mpr rfl
  exact claim9_history_threading [] llmDirect 3 ragBoom "新问题"
    [Msg.user "甲", Msg.assistant ⟨some "乙", []⟩] false none 3 _ hmem

end AIChat
